import Mathlib

/-!
Shallow embedding of src/src/mini-file.c (the `mini` INI-file document store).

The C data model is three singly linked structures:
  SectionData { char *key; char *value; SectionData *next; }
  Section     { char *name; SectionData *data; Section *next; }
  MiniFile    { char *file_name; Section *section; Section *__current_section; }

We model the two linked lists as Lean lists and the `__current_section`
pointer as an index into the section list (pointer identity = position;
the only structural change to the section list is a prepend, and every
prepend immediately reassigns the cursor, so an index is a faithful
rendering of the pointer).  C strings are Lean Strings; `strcmp(a,b) == 0`
is string equality (the spec guarantees no embedded NUL).  NULL results
are `Option.none`.  In the main model every allocation succeeds; the
`Alloc` namespace below models the allocation-failure paths explicitly.
-/

set_option autoImplicit false

namespace Mini

/-- One key/value pair (C struct SectionData, minus the intrusive next pointer). -/
structure SectionData where
  key : String
  value : String
deriving DecidableEq

/-- One named section (C struct Section); `data` is its entry list, newest first. -/
structure Section where
  name : String
  data : List SectionData
deriving DecidableEq

/-- The document (C struct MiniFile); `current` is the `__current_section`
pointer rendered as an index into `sections` (`none` = NULL). -/
structure MiniFile where
  file_name : String
  sections : List Section
  current : Option Nat
deriving DecidableEq

/-- mini_file_new: a fresh document has no sections and a NULL cursor
(the C leaves `__current_section` uninitialized until the first
mini_file_insert_section call; no code path reads it before then, and the
header-documented contract is that it is absent). -/
def mini_file_new (file_name : String) : MiniFile :=
  { file_name := file_name, sections := [], current := none }

/-- The scan loop of mini_file_find_section, returning the POSITION of the
first section whose name matches (the C returns the pointer to that node). -/
def find_section_idx (s : String) : List Section → Option Nat
  | [] => none
  | sec :: rest =>
    if sec.name == s then some 0 else (find_section_idx s rest).map (· + 1)

/-- mini_file_find_section: first section whose name equals `s` (the node the
C pointer designates). -/
def mini_file_find_section (m : MiniFile) (s : String) : Option Section :=
  m.sections.find? (fun sec => sec.name == s)

/-- mini_file_find_key: first entry of the section whose key equals `key`. -/
def mini_file_find_key (sec : Section) (key : String) : Option SectionData :=
  sec.data.find? (fun d => d.key == key)

/-- mini_file_insert_section: if a section of this name exists, only the
cursor moves to it; otherwise a new empty section is prepended (it becomes
the head) and the cursor is set to it.  Allocation of the new Section is
assumed to succeed here (see `Mini.Alloc` for the failure paths). -/
def mini_file_insert_section (m : MiniFile) (section_name : String) :
    Option MiniFile :=
  match find_section_idx section_name m.sections with
  | some i => some { m with current := some i }
  | none =>
      some { m with
             sections := { name := section_name, data := [] } :: m.sections,
             current := some 0 }

/-- mini_file_insert_key_and_value: fails (NULL) when there is no section or
no current section; the duplicate-key check scans the CURSOR section
(`mini_file->__current_section`), but the new entry is prepended to the HEAD
section (`mini_file->section->data`), exactly as the C does.  The dangling
cursor case (`index out of range`) cannot arise in documents built through
the API; the C would dereference invalid memory there, we return none.
Allocation of the new SectionData is assumed to succeed (see `Mini.Alloc`). -/
def mini_file_insert_key_and_value (m : MiniFile) (key value : String) :
    Option MiniFile :=
  match m.sections with
  | [] => none
  | head :: rest =>
    match m.current with
    | none => none
    | some i =>
      match (head :: rest)[i]? with
      | none => none
      | some cursec =>
        match mini_file_find_key cursec key with
        | some _ => some m
        | none =>
          some { m with
                 sections :=
                   { head with data := { key := key, value := value } :: head.data }
                     :: rest }

/-- mini_file_get_number_of_sections: length of the section list. -/
def mini_file_get_number_of_sections (m : MiniFile) : Nat :=
  m.sections.length

/-- mini_file_get_number_of_keys: number of entries of the named section,
0 when the section does not exist. -/
def mini_file_get_number_of_keys (m : MiniFile) (s : String) : Nat :=
  match mini_file_find_section m s with
  | none => 0
  | some sec => sec.data.length

/-- mini_file_get_section: name of the section at 0-based position `pos`
counted from the head; NULL when the position is past the end. -/
def mini_file_get_section (m : MiniFile) (pos : Nat) : Option String :=
  (m.sections[pos]?).map (fun sec => sec.name)

/-- mini_file_get_key: name of the key at position `pos` of the named
section; NULL when the section is missing or the position is out of range. -/
def mini_file_get_key (m : MiniFile) (s : String) (pos : Nat) : Option String :=
  match mini_file_find_section m s with
  | none => none
  | some sec => (sec.data[pos]?).map (fun d => d.key)

/-- mini_file_get_value: value stored under (section, key); NULL when the
section or the key is missing. -/
def mini_file_get_value (m : MiniFile) (s key : String) : Option String :=
  match mini_file_find_section m s with
  | none => none
  | some sec =>
    match mini_file_find_key sec key with
    | none => none
    | some d => some d.value

/-- The list of section names, head (newest) first. -/
def section_names (m : MiniFile) : List String :=
  m.sections.map (fun sec => sec.name)

namespace Alloc

/-!
Allocation-aware model of the entry-insertion path.  In the C code,
`mini_file_section_data_new` checks the `malloc` of the SectionData struct
itself, but stores the results of `strdup(key)` / `strdup(value)` without
checking them, so a failed `strdup` yields an entry whose key or value
field is NULL.  We therefore model the stored strings as `Option String`
(`none` = NULL) and drive the three allocations by explicit Booleans. -/

/-- SectionData as actually built by mini_file_section_data_new: the key and
value fields hold whatever strdup returned, possibly NULL. -/
structure SectionData where
  key : Option String
  value : Option String
deriving DecidableEq

/-- Section over NULL-able entries.  (Section names have the same unchecked
strdup in mini_file_section_new; we keep them plain here since the entry
path already exhibits the behaviour.) -/
structure Section where
  name : String
  data : List SectionData
deriving DecidableEq

/-- MiniFile over NULL-able entries. -/
structure MiniFile where
  file_name : String
  sections : List Section
  current : Option Nat
deriving DecidableEq

/-- mini_file_section_data_new with explicit allocation outcomes: NULL when
the struct malloc fails; otherwise the struct is returned with the strdup
results stored UNCHECKED (a failed strdup leaves a NULL key/value field). -/
def mini_file_section_data_new (malloc_ok strdup_key_ok strdup_value_ok : Bool)
    (key value : String) : Option SectionData :=
  if malloc_ok then
    some { key := if strdup_key_ok then some key else none,
           value := if strdup_value_ok then some value else none }
  else
    none

/-- mini_file_find_key over NULL-able entries.  (strcmp against a NULL
stored key would be undefined behaviour in the C; a NULL key never matches
here.) -/
def mini_file_find_key (sec : Section) (key : String) : Option SectionData :=
  sec.data.find? (fun d => d.key == some key)

/-- mini_file_insert_key_and_value with explicit allocation outcomes,
otherwise exactly as in the main model: NULL when the struct malloc fails
(document untouched), and the freshly built entry — with whatever the two
strdup calls produced — prepended to the head section on success. -/
def mini_file_insert_key_and_value
    (malloc_ok strdup_key_ok strdup_value_ok : Bool)
    (m : MiniFile) (key value : String) : Option MiniFile :=
  match m.sections with
  | [] => none
  | head :: rest =>
    match m.current with
    | none => none
    | some i =>
      match (head :: rest)[i]? with
      | none => none
      | some cursec =>
        match mini_file_find_key cursec key with
        | some _ => some m
        | none =>
          match mini_file_section_data_new malloc_ok strdup_key_ok
              strdup_value_ok key value with
          | none => none
          | some d =>
            some { m with sections := { head with data := d :: head.data } :: rest }

end Alloc

end Mini

namespace Mini

theorem find_section_idx_eq_none (s : String) (l : List Section) :
    find_section_idx s l = none ↔ ∀ sec ∈ l, sec.name ≠ s := by
  induction l with
  | nil => simp [find_section_idx]
  | cons a t ih =>
    by_cases ha : a.name = s
    · simp [find_section_idx, ha]
    · simp [find_section_idx, ha, ih, Option.map_eq_none']

theorem find_section_idx_spec (s : String) :
    ∀ (l : List Section) (i : Nat), find_section_idx s l = some i →
      ∃ sec, l[i]? = some sec ∧ sec.name = s := by
  intro l
  induction l with
  | nil => intro i h; simp [find_section_idx] at h
  | cons a t ih =>
    intro i h
    by_cases ha : a.name = s
    · rw [find_section_idx, if_pos (by simp [ha])] at h
      obtain rfl := Option.some.inj h
      exact ⟨a, by simp, ha⟩
    · rw [find_section_idx, if_neg (by simp [ha])] at h
      obtain ⟨j, hj, rfl⟩ := Option.map_eq_some'.mp h
      obtain ⟨sec, hsec, hname⟩ := ih j hj
      exact ⟨sec, by simpa using hsec, hname⟩

theorem insert_key_eq_some (m : MiniFile) (k v : String) (m2 : MiniFile)
    (h : mini_file_insert_key_and_value m k v = some m2) :
    m2 = m ∨ ∃ head rest, m.sections = head :: rest ∧
      m2 = { m with sections :=
               { head with data := { key := k, value := v } :: head.data } :: rest } := by
  obtain ⟨fn, secs, cur⟩ := m
  cases secs with
  | nil => simp [mini_file_insert_key_and_value] at h
  | cons head rest =>
    cases cur with
    | none => simp [mini_file_insert_key_and_value] at h
    | some i =>
      cases hget : (head :: rest)[i]? with
      | none => simp [mini_file_insert_key_and_value, hget] at h
      | some cursec =>
        cases hfind : mini_file_find_key cursec k with
        | some d =>
          simp [mini_file_insert_key_and_value, hget, hfind] at h
          exact Or.inl h.symm
        | none =>
          simp [mini_file_insert_key_and_value, hget, hfind] at h
          exact Or.inr ⟨head, rest, rfl, h.symm⟩

end Mini

namespace Mini

/-- Claim C1: the code under test contradicts the claim.  With sections
created in the order A, B and the cursor then moved back to A, inserting
the key k with value v places the entry in the HEAD section B, not in the
cursor section A: afterwards value_of(doc, A, k) is absent while
value_of(doc, B, k) is v. -/
theorem c1_insert_targets_head_not_cursor :
    ((mini_file_insert_section (mini_file_new "f") "A").bind (fun m =>
     (mini_file_insert_section m "B").bind (fun m =>
     (mini_file_insert_section m "A").bind (fun m =>
     mini_file_insert_key_and_value m "k" "v"))))
      = some ⟨"f", [⟨"B", [⟨"k", "v"⟩]⟩, ⟨"A", []⟩], some 1⟩
    ∧ mini_file_get_value ⟨"f", [⟨"B", [⟨"k", "v"⟩]⟩, ⟨"A", []⟩], some 1⟩ "A" "k"
        = none
    ∧ mini_file_get_value ⟨"f", [⟨"B", [⟨"k", "v"⟩]⟩, ⟨"A", []⟩], some 1⟩ "B" "k"
        = some "v" :=
  ⟨rfl, rfl, rfl⟩

/-- Claim C2: the per-section key-uniqueness invariant is NOT preserved by
the operations.  The sequence select A; select B; insert (k, v1); select A;
insert (k, v2) is reachable from a fresh document and ends with section B
holding two entries both keyed k, because the duplicate check runs against
the cursor section A while the insertion goes to the head section B. -/
theorem c2_duplicate_keys_reachable :
    ((mini_file_insert_section (mini_file_new "f") "A").bind (fun m =>
     (mini_file_insert_section m "B").bind (fun m =>
     (mini_file_insert_key_and_value m "k" "v1").bind (fun m =>
     (mini_file_insert_section m "A").bind (fun m =>
     mini_file_insert_key_and_value m "k" "v2")))))
      = some ⟨"f", [⟨"B", [⟨"k", "v2"⟩, ⟨"k", "v1"⟩]⟩, ⟨"A", []⟩], some 1⟩
    ∧ ¬ (([⟨"k", "v2"⟩, ⟨"k", "v1"⟩] : List SectionData).map
          (fun d => d.key)).Nodup :=
  ⟨rfl, by decide⟩

/-- Claim C6: inserting a key/value pair into a document that has no
sections returns none and, since the C returns before any write, the
document is untouched. -/
theorem c6_insert_entry_without_section_fails (m : MiniFile) (k v : String)
    (h : m.sections = []) : mini_file_insert_key_and_value m k v = none := by
  obtain ⟨fn, secs, cur⟩ := m
  obtain rfl : secs = [] := h
  rfl

/-- Witness for C6 at a freshly created document. -/
theorem c6_witness :
    mini_file_insert_key_and_value (mini_file_new "cfg") "k" "v" = none :=
  c6_insert_entry_without_section_fails (mini_file_new "cfg") "k" "v" rfl

/-- Claim C10: a successful or duplicate-no-op entry insertion never
changes the section collection itself: the list of section names (hence
the section count and their order) is the same before and after.  A failed
insertion returns none with the C bailing out before any write, which the
pure model renders by leaving the input document untouched. -/
theorem c10_insert_entry_preserves_section_list (m : MiniFile) (k v : String)
    (m2 : MiniFile) (h : mini_file_insert_key_and_value m k v = some m2) :
    section_names m2 = section_names m
    ∧ mini_file_get_number_of_sections m2 = mini_file_get_number_of_sections m := by
  rcases insert_key_eq_some m k v m2 h with rfl | ⟨head, rest, hsecs, rfl⟩
  · exact ⟨rfl, rfl⟩
  · constructor
    · simp [section_names, hsecs]
    · simp [mini_file_get_number_of_sections, hsecs]

/-- Witness for C10: inserting into a one-section document preserves the
name list and the section count. -/
theorem c10_witness :
    section_names ⟨"f", [⟨"A", [⟨"k", "v"⟩]⟩], some 0⟩
      = section_names ⟨"f", [⟨"A", []⟩], some 0⟩
    ∧ mini_file_get_number_of_sections ⟨"f", [⟨"A", [⟨"k", "v"⟩]⟩], some 0⟩
      = mini_file_get_number_of_sections ⟨"f", [⟨"A", []⟩], some 0⟩ :=
  c10_insert_entry_preserves_section_list ⟨"f", [⟨"A", []⟩], some 0⟩ "k" "v"
    ⟨"f", [⟨"A", [⟨"k", "v"⟩]⟩], some 0⟩ rfl

/-- Claim C9: a successful select_or_create_section always leaves the
cursor on a section bearing the requested name (also when the section
already existed), while a successful insert_key_and_value leaves the
cursor exactly as it was; the read-only queries are pure functions of the
document and mutate nothing. -/
theorem c9_cursor_discipline :
    (∀ (m : MiniFile) (s : String) (m2 : MiniFile),
      mini_file_insert_section m s = some m2 →
      ∃ i sec, m2.current = some i ∧ m2.sections[i]? = some sec ∧ sec.name = s)
    ∧ (∀ (m : MiniFile) (k v : String) (m2 : MiniFile),
        mini_file_insert_key_and_value m k v = some m2 →
        m2.current = m.current) := by
  constructor
  · intro m s m2 h
    rw [mini_file_insert_section] at h
    cases hfind : find_section_idx s m.sections with
    | some i =>
      rw [hfind] at h
      obtain rfl := Option.some.inj h
      obtain ⟨sec, hsec, hname⟩ := find_section_idx_spec s m.sections i hfind
      exact ⟨i, sec, rfl, hsec, hname⟩
    | none =>
      rw [hfind] at h
      obtain rfl := Option.some.inj h
      exact ⟨0, ⟨s, []⟩, rfl, by simp, rfl⟩
  · intro m k v m2 h
    rcases insert_key_eq_some m k v m2 h with rfl | ⟨head, rest, hsecs, rfl⟩
    · rfl
    · rfl

/-- Witness for C9: both parts applied to a concrete document. -/
theorem c9_witness :
    (∃ i sec,
      (⟨"f", [⟨"B", []⟩, ⟨"A", []⟩], some 1⟩ : MiniFile).current = some i
      ∧ (⟨"f", [⟨"B", []⟩, ⟨"A", []⟩], some 1⟩ : MiniFile).sections[i]?
          = some sec
      ∧ sec.name = "A")
    ∧ (⟨"f", [⟨"B", [⟨"k", "v"⟩]⟩, ⟨"A", []⟩], some 1⟩ : MiniFile).current
        = (⟨"f", [⟨"B", []⟩, ⟨"A", []⟩], some 1⟩ : MiniFile).current :=
  ⟨c9_cursor_discipline.1 ⟨"f", [⟨"B", []⟩, ⟨"A", []⟩], some 0⟩ "A" _ rfl,
   c9_cursor_discipline.2 ⟨"f", [⟨"B", []⟩, ⟨"A", []⟩], some 1⟩ "k" "v" _ rfl⟩

/-- Claim C8: the code under test violates the claim when strdup fails.
With one empty selected section, if the SectionData malloc succeeds but
strdup of the key fails, the insertion still links a half-built Entry (NULL
key) into the section and returns the document as a success; the prior
state is not preserved.  (The struct-malloc failure path does behave as
claimed: it returns none before linking anything.) -/
theorem c8_strdup_failure_links_null_key_entry :
    Alloc.mini_file_insert_key_and_value true false true
        ⟨"f", [⟨"A", []⟩], some 0⟩ "k" "v"
      = some ⟨"f", [⟨"A", [⟨none, some "v"⟩]⟩], some 0⟩
    ∧ (⟨"f", [⟨"A", [⟨none, some "v"⟩]⟩], some 0⟩ : Alloc.MiniFile)
        ≠ ⟨"f", [⟨"A", []⟩], some 0⟩
    ∧ Alloc.mini_file_insert_key_and_value false true true
        ⟨"f", [⟨"A", []⟩], some 0⟩ "k" "v" = none :=
  ⟨rfl, by decide, rfl⟩

end Mini

namespace Mini

/-- Claim C3: first write wins.  In a document whose single section is
selected and does not yet hold the key k, inserting (k, v1) and then
(k, v2) succeeds, the second call returns the document unchanged, and the
stored value for k remains v1. -/
theorem c3_first_write_wins (fn : String) (sec : Section) (k v1 v2 : String)
    (hk : ∀ d ∈ sec.data, d.key ≠ k) :
    ∃ m1 : MiniFile,
      mini_file_insert_key_and_value ⟨fn, [sec], some 0⟩ k v1 = some m1
      ∧ mini_file_insert_key_and_value m1 k v2 = some m1
      ∧ mini_file_get_value m1 sec.name k = some v1 := by
  have hfind : mini_file_find_key sec k = none :=
    List.find?_eq_none.mpr (by intro d hd; simpa using hk d hd)
  refine ⟨⟨fn, [{ sec with data := { key := k, value := v1 } :: sec.data }], some 0⟩,
    ?_, ?_, ?_⟩
  · simp [mini_file_insert_key_and_value, hfind]
  · simp [mini_file_insert_key_and_value, mini_file_find_key]
  · simp [mini_file_get_value, mini_file_find_section, mini_file_find_key]

/-- Witness for C3 on a fresh one-section document. -/
theorem c3_witness :
    ∃ m1 : MiniFile,
      mini_file_insert_key_and_value ⟨"f", [⟨"A", []⟩], some 0⟩ "k" "v1" = some m1
      ∧ mini_file_insert_key_and_value m1 "k" "v2" = some m1
      ∧ mini_file_get_value m1 "A" "k" = some "v1" :=
  c3_first_write_wins "f" ⟨"A", []⟩ "k" "v1" "v2" (by simp)

/-- Claim C4: positional enumeration is newest-first.  Creating sections A
then B in a fresh document puts B at position 0 and A at position 1; in
general a successful insertion of a not-yet-present section name prepends
it (position 0, all earlier sections shifted by one), and a successful
insertion of a not-yet-present key prepends it to the entry list of the
head section (the section that receives new entries), so that key
enumeration of that section is also newest-first. -/
theorem c4_enumeration_newest_first :
    (∀ fn : String,
      (mini_file_insert_section (mini_file_new fn) "A").bind
          (fun m => mini_file_insert_section m "B")
        = some ⟨fn, [⟨"B", []⟩, ⟨"A", []⟩], some 0⟩
      ∧ mini_file_get_section ⟨fn, [⟨"B", []⟩, ⟨"A", []⟩], some 0⟩ 0 = some "B"
      ∧ mini_file_get_section ⟨fn, [⟨"B", []⟩, ⟨"A", []⟩], some 0⟩ 1 = some "A")
    ∧ (∀ (m : MiniFile) (s : String),
        (∀ sec ∈ m.sections, sec.name ≠ s) →
        ∃ m2, mini_file_insert_section m s = some m2
          ∧ mini_file_get_section m2 0 = some s
          ∧ ∀ i, mini_file_get_section m2 (i + 1) = mini_file_get_section m i)
    ∧ (∀ (m : MiniFile) (head : Section) (rest : List Section) (i : Nat)
         (cursec : Section) (k v : String),
        m.sections = head :: rest → m.current = some i →
        m.sections[i]? = some cursec →
        (∀ d ∈ cursec.data, d.key ≠ k) →
        ∃ m2, mini_file_insert_key_and_value m k v = some m2
          ∧ mini_file_get_key m2 head.name 0 = some k
          ∧ ∀ j, mini_file_get_key m2 head.name (j + 1)
                   = mini_file_get_key m head.name j) := by
  refine ⟨fun fn => ⟨rfl, rfl, rfl⟩, ?_, ?_⟩
  · intro m s hs
    have hnone : find_section_idx s m.sections =  none :=
      (find_section_idx_eq_none s m.sections).mpr hs
    refine ⟨{ m with sections := ⟨s, []⟩ :: m.sections, current := some 0 },
      ?_, ?_, ?_⟩
    · rw [mini_file_insert_section, hnone]
    · simp [mini_file_get_section]
    · intro i
      simp [mini_file_get_section]
  · intro m head rest i cursec k v hsecs hcur hget hk
    obtain ⟨fn, secs, cur⟩ := m
    obtain rfl : secs = head :: rest := hsecs
    obtain rfl : cur = some i := hcur
    have hfind : mini_file_find_key cursec k = none :=
      List.find?_eq_none.mpr (by intro d hd; simpa using hk d hd)
    refine ⟨⟨fn, { head with data := { key := k, value := v } :: head.data } :: rest,
      some i⟩, ?_, ?_, ?_⟩
    · simp only [mini_file_insert_key_and_value]
      rw [show (⟨fn, head :: rest, some i⟩ : MiniFile).sections[i]? = some cursec
            from hget]
      simp [hfind]
    · simp [mini_file_get_key, mini_file_find_section]
    · intro j
      simp [mini_file_get_key, mini_file_find_section]

/-- Witness for C4: its two conditional parts applied to concrete
documents (a new name C, and a fresh key k inserted while the cursor sits
on section A behind the head B). -/
theorem c4_witness :
    (∃ m2, mini_file_insert_section ⟨"f", [⟨"B", []⟩, ⟨"A", []⟩], some 0⟩ "C"
        = some m2
      ∧ mini_file_get_section m2 0 = some "C"
      ∧ ∀ i, mini_file_get_section m2 (i + 1)
               = mini_file_get_section ⟨"f", [⟨"B", []⟩, ⟨"A", []⟩], some 0⟩ i)
    ∧ (∃ m2, mini_file_insert_key_and_value
          ⟨"f", [⟨"B", []⟩, ⟨"A", []⟩], some 1⟩ "k" "v" = some m2
      ∧ mini_file_get_key m2 (⟨"B", []⟩ : Section).name 0 = some "k"
      ∧ ∀ j, mini_file_get_key m2 (⟨"B", []⟩ : Section).name (j + 1)
               = mini_file_get_key ⟨"f", [⟨"B", []⟩, ⟨"A", []⟩], some 1⟩
                   (⟨"B", []⟩ : Section).name j) :=
  ⟨c4_enumeration_newest_first.2.1 ⟨"f", [⟨"B", []⟩, ⟨"A", []⟩], some 0⟩ "C"
      (by simp),
   c4_enumeration_newest_first.2.2 ⟨"f", [⟨"B", []⟩, ⟨"A", []⟩], some 1⟩
      ⟨"B", []⟩ [⟨"A", []⟩] 1 ⟨"A", []⟩ "k" "v" rfl rfl (by simp) (by simp)⟩

end Mini

namespace Mini

/-- Claim C5: section selection is idempotent and keeps section names
pairwise distinct.  Selecting A twice on a fresh document yields exactly
one section, named A; and both mutating operations preserve distinctness
of the section-name list (insert_section only prepends names that are not
yet present, insert_key_and_value never touches the name list). -/
theorem c5_selection_idempotent_and_names_distinct :
    (∀ fn : String,
      (mini_file_insert_section (mini_file_new fn) "A").bind
          (fun m => mini_file_insert_section m "A")
        = some ⟨fn, [⟨"A", []⟩], some 0⟩
      ∧ mini_file_get_number_of_sections ⟨fn, [⟨"A", []⟩], some 0⟩ = 1
      ∧ section_names ⟨fn, [⟨"A", []⟩], some 0⟩ = ["A"])
    ∧ (∀ (m : MiniFile) (s : String) (m2 : MiniFile),
        (section_names m).Nodup → mini_file_insert_section m s = some m2 →
        (section_names m2).Nodup)
    ∧ (∀ (m : MiniFile) (k v : String) (m2 : MiniFile),
        (section_names m).Nodup →
        mini_file_insert_key_and_value m k v = some m2 →
        (section_names m2).Nodup) := by
  refine ⟨fun fn => ⟨rfl, rfl, rfl⟩, ?_, ?_⟩
  · intro m s m2 hnd h
    rw [mini_file_insert_section] at h
    cases hfind : find_section_idx s m.sections with
    | some i =>
      rw [hfind] at h
      obtain rfl := Option.some.inj h
      exact hnd
    | none =>
      rw [hfind] at h
      obtain rfl := Option.some.inj h
      have hs : s ∉ section_names m := fun hmem => by
        obtain ⟨sec, hsec, hname⟩ := List.mem_map.mp hmem
        exact (find_section_idx_eq_none s m.sections).mp hfind sec hsec hname
      simpa [section_names] using List.nodup_cons.mpr ⟨hs, hnd⟩
  · intro m k v m2 hnd h
    rcases insert_key_eq_some m k v m2 h with rfl | ⟨head, rest, hsecs, rfl⟩
    · exact hnd
    · simpa [section_names, hsecs] using hnd

/-- Witness for C5: the invariant-preservation part applied to a concrete
two-section step. -/
theorem c5_witness :
    (section_names ⟨"f", [⟨"B", []⟩, ⟨"A", []⟩], some 0⟩).Nodup :=
  c5_selection_idempotent_and_names_distinct.2.1
    ⟨"f", [⟨"A", []⟩], some 0⟩ "B" ⟨"f", [⟨"B", []⟩, ⟨"A", []⟩], some 0⟩
    (by simp [section_names]) rfl

/-- Claim C7: every not-found read returns none.  A missing section name
makes get_value and get_key return none; a present section without the
key makes get_value return none; a position at or past the section count
makes get_section return none; a position at or past the key count of a
present section makes get_key return none. -/
theorem c7_not_found_returns_absent :
    (∀ (m : MiniFile) (s k : String) (pos : Nat),
      (∀ sec ∈ m.sections, sec.name ≠ s) →
      mini_file_get_value m s k = none ∧ mini_file_get_key m s pos = none)
    ∧ (∀ (m : MiniFile) (s k : String) (sec : Section),
        mini_file_find_section m s = some sec →
        (∀ d ∈ sec.data, d.key ≠ k) →
        mini_file_get_value m s k = none)
    ∧ (∀ (m : MiniFile) (pos : Nat),
        mini_file_get_number_of_sections m ≤ pos →
        mini_file_get_section m pos = none)
    ∧ (∀ (m : MiniFile) (s : String) (sec : Section) (pos : Nat),
        mini_file_find_section m s = some sec →
        mini_file_get_number_of_keys m s ≤ pos →
        mini_file_get_key m s pos = none) := by
  refine ⟨?_, ?_, ?_, ?_⟩
  · intro m s k pos hs
    have hfind : mini_file_find_section m s = none :=
      List.find?_eq_none.mpr (by intro sec hsec; simpa using hs sec hsec)
    exact ⟨by simp [mini_file_get_value, hfind],
           by simp [mini_file_get_key, hfind]⟩
  · intro m s k sec hfind hk
    have hkey : mini_file_find_key sec k = none :=
      List.find?_eq_none.mpr (by intro d hd; simpa using hk d hd)
    simp [mini_file_get_value, hfind, hkey]
  · intro m pos hpos
    simp [mini_file_get_section,
      List.getElem?_eq_none (show m.sections.length ≤ pos from hpos)]
  · intro m s sec pos hfind hpos
    have hlen : sec.data.length ≤ pos := by
      simpa [mini_file_get_number_of_keys, hfind] using hpos
    simp [mini_file_get_key, hfind, List.getElem?_eq_none hlen]

/-- Witness for C7: all four parts applied to a concrete one-section
document, with the missing name nope, the missing key k and the
out-of-range position 99. -/
theorem c7_witness :
    (mini_file_get_value ⟨"f", [⟨"A", [⟨"x", "1"⟩]⟩], some 0⟩ "nope" "k" = none
      ∧ mini_file_get_key ⟨"f", [⟨"A", [⟨"x", "1"⟩]⟩], some 0⟩ "nope" 99 = none)
    ∧ mini_file_get_value ⟨"f", [⟨"A", [⟨"x", "1"⟩]⟩], some 0⟩ "A" "k" = none
    ∧ mini_file_get_section ⟨"f", [⟨"A", [⟨"x", "1"⟩]⟩], some 0⟩ 99 = none
    ∧ mini_file_get_key ⟨"f", [⟨"A", [⟨"x", "1"⟩]⟩], some 0⟩ "A" 99 = none :=
  ⟨c7_not_found_returns_absent.1 ⟨"f", [⟨"A", [⟨"x", "1"⟩]⟩], some 0⟩
      "nope" "k" 99 (by decide),
   c7_not_found_returns_absent.2.1 ⟨"f", [⟨"A", [⟨"x", "1"⟩]⟩], some 0⟩
      "A" "k" ⟨"A", [⟨"x", "1"⟩]⟩ rfl (by decide),
   c7_not_found_returns_absent.2.2.1 ⟨"f", [⟨"A", [⟨"x", "1"⟩]⟩], some 0⟩
      99 (by decide),
   c7_not_found_returns_absent.2.2.2 ⟨"f", [⟨"A", [⟨"x", "1"⟩]⟩], some 0⟩
      "A" ⟨"A", [⟨"x", "1"⟩]⟩ 99 rfl (by decide)⟩

end Mini
